import Mathlib

/-!
Shallow embedding of the DecentraLogix ledger core: the `TripRegistry`
(asset registry), `PaymentEscrow` (conditional escrow) and `CarbonCredits`
(reward ledger) contracts. Addresses are modelled as `Nat` (0 is the zero
address), uint256 values as `Nat` (Solidity 0.8 checked arithmetic never
wraps; it reverts, which the embedding renders as `Except.error`), and
`require` failures as `Except.error` carrying the revert message.
-/

/-- `ITripRegistry.TripStatus`. -/
inductive TripStatus where
  | Created
  | InTransit
  | Delivered
  | Cancelled
  | Disputed
deriving DecidableEq, Repr

/-- `ITripRegistry.TripMetadata`. -/
structure TripMetadata where
  tripId : Nat
  shipper : Nat
  carrier : Nat
  receiver : Nat
  originLocation : String
  destinationLocation : String
  distance : Nat
  estimatedCarbonFootprint : Nat
  status : TripStatus
  createdAt : Nat
  startedAt : Nat
  completedAt : Nat
  ipfsMetadataHash : String
deriving DecidableEq, Repr

/-- `TripRegistry.createTrip`: validation and construction of the new
`TripMetadata` record, per-record view. `sender` is `msg.sender` (the
shipper), `tripCounter` the value of `_tripCounter` before the call, and
`now` is `block.timestamp`. -/
def createTrip (sender carrier receiver : Nat)
    (originLocation destinationLocation : String)
    (distance estimatedCarbonFootprint : Nat)
    (ipfsMetadataHash : String) (tripCounter now : Nat) :
    Except String TripMetadata :=
  if carrier = 0 then .error "TripRegistry: Invalid carrier address"
  else if receiver = 0 then .error "TripRegistry: Invalid receiver address"
  else if carrier = sender then .error "TripRegistry: Cannot be own carrier"
  else if distance = 0 then .error "TripRegistry: Distance must be greater than 0"
  else if estimatedCarbonFootprint = 0 then
    .error "TripRegistry: Carbon footprint must be greater than 0"
  else .ok
    { tripId := tripCounter + 1
      shipper := sender
      carrier := carrier
      receiver := receiver
      originLocation := originLocation
      destinationLocation := destinationLocation
      distance := distance
      estimatedCarbonFootprint := estimatedCarbonFootprint
      status := TripStatus.Created
      createdAt := now
      startedAt := 0
      completedAt := 0
      ipfsMetadataHash := ipfsMetadataHash }

/-- `TripRegistry.startTrip`, per-record view (`tripExists` holds because a
record is in hand). Modifier order: `onlyCarrier`, then `validStatusForStart`. -/
def startTrip (sender : Nat) (t : TripMetadata) (now : Nat) :
    Except String TripMetadata :=
  if ¬ t.carrier = sender then .error "TripRegistry: Not authorized carrier"
  else if ¬ t.status = TripStatus.Created then .error "TripRegistry: Trip cannot be started"
  else .ok { t with status := TripStatus.InTransit, startedAt := now }

/-- `TripRegistry.completeTrip`, per-record view. -/
def completeTrip (sender : Nat) (t : TripMetadata)
    (actualCarbonFootprint : Nat) (ipfsProofHash : String) (now : Nat) :
    Except String TripMetadata :=
  if ¬ t.carrier = sender then .error "TripRegistry: Not authorized carrier"
  else if ¬ t.status = TripStatus.InTransit then .error "TripRegistry: Trip cannot be completed"
  else if ipfsProofHash.length > 0 then
    .ok { t with status := TripStatus.Delivered, completedAt := now,
                 ipfsMetadataHash := ipfsProofHash }
  else .ok { t with status := TripStatus.Delivered, completedAt := now }

/-- `TripRegistry.cancelTrip`, per-record view. -/
def cancelTrip (sender : Nat) (t : TripMetadata) (reason : String) :
    Except String TripMetadata :=
  if ¬ (t.shipper = sender ∨ t.carrier = sender) then .error "TripRegistry: Not authorized"
  else if ¬ (t.status = TripStatus.Created ∨ t.status = TripStatus.InTransit) then
    .error "TripRegistry: Trip cannot be cancelled"
  else .ok { t with status := TripStatus.Cancelled }

/-- The ordinary (non-administrative) mutating operations on an existing
trip record: `startTrip`, `completeTrip`, `cancelTrip`. `updateTripStatus`
(the admin override) is deliberately not among them. -/
inductive TripOp where
  | start (sender now : Nat)
  | complete (sender actualCarbonFootprint : Nat) (ipfsProofHash : String) (now : Nat)
  | cancel (sender : Nat) (reason : String)
deriving Repr

/-- One ordinary operation applied to a trip record. -/
def tripStep (t : TripMetadata) (op : TripOp) : Except String TripMetadata :=
  match op with
  | TripOp.start sender now => startTrip sender t now
  | TripOp.complete sender actual proofHash now => completeTrip sender t actual proofHash now
  | TripOp.cancel sender reason => cancelTrip sender t reason

/-- Trip records reachable from a successful `createTrip` by ordinary
operations. -/
inductive ReachableTrip : TripMetadata → Prop where
  | created (sender carrier receiver : Nat) (o d : String) (dist impact : Nat)
      (h : String) (ctr now : Nat) (t : TripMetadata) :
      createTrip sender carrier receiver o d dist impact h ctr now = .ok t →
      ReachableTrip t
  | step (t : TripMetadata) (op : TripOp) (t' : TripMetadata) :
      ReachableTrip t → tripStep t op = .ok t' → ReachableTrip t'

/-- `IPaymentEscrow.EscrowStatus`. -/
inductive EscrowStatus where
  | Pending
  | PartiallyReleased
  | Released
  | Refunded
  | Disputed
deriving DecidableEq, Repr

/-- `IPaymentEscrow.PaymentConditions` (`uint8` percentages as `Nat`). -/
structure PaymentConditions where
  requiresTripCompletion : Bool
  requiresDeliveryProof : Bool
  requiresReceiverConfirmation : Bool
  milestonePercentage : Nat
  completionPercentage : Nat
deriving DecidableEq, Repr

/-- `IPaymentEscrow.EscrowPayment`. -/
structure EscrowPayment where
  escrowId : Nat
  tripId : Nat
  payer : Nat
  payee : Nat
  amount : Nat
  releasedAmount : Nat
  status : EscrowStatus
  createdAt : Nat
  releasedAt : Nat
  conditions : PaymentConditions
deriving DecidableEq, Repr

/-- An outgoing ETH transfer performed by an escrow operation
(a successful `payable(x).call` with the given value). -/
structure Transfer where
  recipient : Nat
  value : Nat
deriving DecidableEq, Repr

/-- Events emitted by `PaymentEscrow`. -/
inductive EscrowEvent where
  | EscrowCreated (escrowId tripId payer payee amount : Nat)
  | PaymentDeposited (escrowId amount newTotal : Nat)
  | PaymentReleased (escrowId amount payee : Nat) (reason : String)
  | PaymentRefunded (escrowId amount : Nat) (reason : String)
  | EscrowStatusUpdated (escrowId : Nat) (oldStatus newStatus : EscrowStatus)
  | MilestoneCompleted (escrowId milestoneId amount : Nat)
deriving DecidableEq, Repr

/-- `PaymentEscrow.createEscrow`. `msgValue` is `msg.value`; `tripHasEscrow`
mirrors `_tripToEscrow[tripId] != 0` and `tripRegistered` whether
`tripRegistry.getTripMetadata(tripId)` succeeds; `escrowCounter` is
`_escrowCounter` before the call. -/
def createEscrow (sender tripId payee : Nat) (conditions : PaymentConditions)
    (msgValue : Nat) (tripHasEscrow tripRegistered : Bool)
    (escrowCounter now : Nat) : Except String EscrowPayment :=
  if msgValue = 0 then .error "PaymentEscrow: Must send payment"
  else if payee = 0 then .error "PaymentEscrow: Invalid payee address"
  else if tripHasEscrow then .error "PaymentEscrow: Escrow already exists for trip"
  else if ¬ tripRegistered then .error "PaymentEscrow: Trip does not exist"
  else if ¬ (conditions.milestonePercentage + conditions.completionPercentage ≤ 100) then
    .error "PaymentEscrow: Invalid percentage sum"
  else .ok
    { escrowId := escrowCounter + 1
      tripId := tripId
      payer := sender
      payee := payee
      amount := msgValue
      releasedAmount := 0
      status := EscrowStatus.Pending
      createdAt := now
      releasedAt := 0
      conditions := conditions }

/-- `PaymentEscrow.depositToEscrow`, per-record view. -/
def depositToEscrow (sender : Nat) (e : EscrowPayment) (msgValue : Nat) :
    Except String (EscrowPayment × List EscrowEvent) :=
  if msgValue = 0 then .error "PaymentEscrow: Must send payment"
  else if ¬ e.payer = sender then .error "PaymentEscrow: Only payer can deposit"
  else if ¬ (e.status = EscrowStatus.Pending ∨ e.status = EscrowStatus.PartiallyReleased) then
    .error "PaymentEscrow: Cannot deposit to escrow"
  else .ok ({ e with amount := e.amount + msgValue },
    [EscrowEvent.PaymentDeposited e.escrowId msgValue (e.amount + msgValue)])

/-- `PaymentEscrow.releasePayment`, per-record view. `owner` is the contract
owner (`Ownable`); modifier order is `escrowExists`, `validStatusForRelease`,
then the body's `require`s in source order. -/
def releasePayment (sender owner : Nat) (e : EscrowPayment) (amount : Nat)
    (reason : String) (now : Nat) :
    Except String (EscrowPayment × List Transfer × List EscrowEvent) :=
  if ¬ (e.status = EscrowStatus.Pending ∨ e.status = EscrowStatus.PartiallyReleased) then
    .error "PaymentEscrow: Cannot release payment"
  else if amount = 0 then .error "PaymentEscrow: Amount must be greater than 0"
  else if ¬ (amount ≤ e.amount - e.releasedAmount) then
    .error "PaymentEscrow: Insufficient balance"
  else if ¬ (sender = owner ∨ sender = e.payer) then
    .error "PaymentEscrow: Not authorized to release"
  else if e.releasedAmount + amount ≥ e.amount then
    .ok ({ e with releasedAmount := e.releasedAmount + amount,
                  status := EscrowStatus.Released, releasedAt := now },
         [{ recipient := e.payee, value := amount }],
         [EscrowEvent.PaymentReleased e.escrowId amount e.payee reason,
          EscrowEvent.EscrowStatusUpdated e.escrowId EscrowStatus.PartiallyReleased
            EscrowStatus.Released])
  else
    .ok ({ e with releasedAmount := e.releasedAmount + amount,
                  status := EscrowStatus.PartiallyReleased },
         [{ recipient := e.payee, value := amount }],
         [EscrowEvent.PaymentReleased e.escrowId amount e.payee reason])

/-- `PaymentEscrow.releaseOnTripCompletion`, per-record view. `sender` is
`msg.sender`; the body never consults it. `trip` is the record returned by
`tripRegistry.getTripMetadata(tripId)`. -/
def releaseOnTripCompletion (sender : Nat) (e : EscrowPayment) (tripId : Nat)
    (trip : TripMetadata) (now : Nat) :
    Except String (EscrowPayment × List Transfer × List EscrowEvent) :=
  if ¬ (e.status = EscrowStatus.Pending ∨ e.status = EscrowStatus.PartiallyReleased) then
    .error "PaymentEscrow: Cannot release payment"
  else if ¬ e.tripId = tripId then .error "PaymentEscrow: Trip ID mismatch"
  else if ¬ trip.status = TripStatus.Delivered then .error "PaymentEscrow: Trip not completed"
  else
    let releaseAmount := e.amount * e.conditions.completionPercentage / 100
    let remainingAmount := e.amount - e.releasedAmount
    let amountToRelease := if releaseAmount < remainingAmount then releaseAmount else remainingAmount
    if amountToRelease = 0 then .error "PaymentEscrow: No amount to release"
    else if e.releasedAmount + amountToRelease ≥ e.amount then
      .ok ({ e with releasedAmount := e.releasedAmount + amountToRelease,
                    status := EscrowStatus.Released, releasedAt := now },
           [{ recipient := e.payee, value := amountToRelease }],
           [EscrowEvent.PaymentReleased e.escrowId amountToRelease e.payee "Trip completed",
            EscrowEvent.EscrowStatusUpdated e.escrowId EscrowStatus.Pending
              EscrowStatus.Released])
    else
      .ok ({ e with releasedAmount := e.releasedAmount + amountToRelease,
                    status := EscrowStatus.PartiallyReleased },
           [{ recipient := e.payee, value := amountToRelease }],
           [EscrowEvent.PaymentReleased e.escrowId amountToRelease e.payee "Trip completed"])

/-- `PaymentEscrow.completeMilestone`, per-record view. The only modifier is
`escrowExists`; `sender` is `msg.sender` and the body never consults it. -/
def completeMilestone (sender : Nat) (e : EscrowPayment) (milestoneId : Nat)
    (proofHash : String) :
    Except String (EscrowPayment × List Transfer × List EscrowEvent) :=
  if ¬ e.status = EscrowStatus.Pending then
    .error "PaymentEscrow: Escrow not in pending status"
  else
    let milestoneAmount := e.amount * e.conditions.milestonePercentage / 100
    if milestoneAmount = 0 then .error "PaymentEscrow: Invalid milestone amount"
    else if ¬ (e.releasedAmount + milestoneAmount ≤ e.amount) then
      .error "PaymentEscrow: Exceeds escrow amount"
    else
      .ok ({ e with releasedAmount := e.releasedAmount + milestoneAmount,
                    status := EscrowStatus.PartiallyReleased },
           [{ recipient := e.payee, value := milestoneAmount }],
           [EscrowEvent.MilestoneCompleted e.escrowId milestoneId milestoneAmount,
            EscrowEvent.PaymentReleased e.escrowId milestoneAmount e.payee
              "Milestone completed"])

/-- `PaymentEscrow.refundPayment`, per-record view. Modifiers: `escrowExists`,
`onlyOwner`. Note the source sets `escrow.status = Refunded` before emitting
`EscrowStatusUpdated(escrowId, escrow.status, Refunded)`, so the `oldStatus`
argument reads the already-overwritten field. -/
def refundPayment (sender owner : Nat) (e : EscrowPayment) (reason : String) :
    Except String (EscrowPayment × List Transfer × List EscrowEvent) :=
  if ¬ sender = owner then .error "PaymentEscrow: Not owner"
  else if ¬ (e.status = EscrowStatus.Pending ∨ e.status = EscrowStatus.PartiallyReleased) then
    .error "PaymentEscrow: Cannot refund"
  else
    let refundAmount := e.amount - e.releasedAmount
    if refundAmount = 0 then .error "PaymentEscrow: No amount to refund"
    else
      let e1 := { e with status := EscrowStatus.Refunded }
      .ok (e1,
           [{ recipient := e.payer, value := refundAmount }],
           [EscrowEvent.PaymentRefunded e.escrowId refundAmount reason,
            EscrowEvent.EscrowStatusUpdated e.escrowId e1.status EscrowStatus.Refunded])

/-- The mutating operations on an existing escrow record. -/
inductive EscrowOp where
  | deposit (sender msgValue : Nat)
  | release (sender amount : Nat) (reason : String) (now : Nat)
  | releaseOnCompletion (sender tripId : Nat) (trip : TripMetadata) (now : Nat)
  | milestone (sender milestoneId : Nat) (proofHash : String)
  | refund (sender : Nat) (reason : String)
deriving Repr

/-- Bookkeeping around one escrow record: the record itself plus the history
of value moved in and out of it (the `msg.value` of the creating/deposit
calls and the values of the outgoing transfers, classified by destination). -/
structure EscrowLedger where
  escrow : EscrowPayment
  deposits : List Nat
  releases : List Nat
  refunds : List Nat
deriving DecidableEq, Repr

/-- One escrow operation applied to a ledger: the record is updated exactly
as by the contract function, and the transferred values are appended to the
history. -/
def ledgerStep (owner : Nat) (L : EscrowLedger) (op : EscrowOp) :
    Except String EscrowLedger :=
  match op with
  | EscrowOp.deposit sender v =>
      match depositToEscrow sender L.escrow v with
      | .ok (e, _) => .ok { L with escrow := e, deposits := L.deposits ++ [v] }
      | .error m => .error m
  | EscrowOp.release sender amt reason now =>
      match releasePayment sender owner L.escrow amt reason now with
      | .ok (e, ts, _) =>
          .ok { L with escrow := e, releases := L.releases ++ ts.map Transfer.value }
      | .error m => .error m
  | EscrowOp.releaseOnCompletion sender tid trip now =>
      match releaseOnTripCompletion sender L.escrow tid trip now with
      | .ok (e, ts, _) =>
          .ok { L with escrow := e, releases := L.releases ++ ts.map Transfer.value }
      | .error m => .error m
  | EscrowOp.milestone sender mid proofHash =>
      match completeMilestone sender L.escrow mid proofHash with
      | .ok (e, ts, _) =>
          .ok { L with escrow := e, releases := L.releases ++ ts.map Transfer.value }
      | .error m => .error m
  | EscrowOp.refund sender reason =>
      match refundPayment sender owner L.escrow reason with
      | .ok (e, ts, _) =>
          .ok { L with escrow := e, refunds := L.refunds ++ ts.map Transfer.value }
      | .error m => .error m

/-- `ledgerStep` with the revert semantics made explicit: a rejected
operation returns the untouched pre-state together with the revert message. -/
def execLedger (owner : Nat) (L : EscrowLedger) (op : EscrowOp) :
    EscrowLedger × Option String :=
  match ledgerStep owner L op with
  | .ok L1 => (L1, none)
  | .error m => (L, some m)

/-- The ledger produced by a successful `createEscrow`: the initial deposit
is `msg.value` and nothing has left the escrow yet. -/
def initLedger (sender tripId payee : Nat) (conditions : PaymentConditions)
    (msgValue : Nat) (tripHasEscrow tripRegistered : Bool)
    (escrowCounter now : Nat) : Except String EscrowLedger :=
  match createEscrow sender tripId payee conditions msgValue tripHasEscrow
      tripRegistered escrowCounter now with
  | .ok e => .ok { escrow := e, deposits := [msgValue], releases := [], refunds := [] }
  | .error m => .error m

/-- Escrow ledgers reachable from a successful `createEscrow` under a fixed
contract owner. -/
inductive ReachableLedger (owner : Nat) : EscrowLedger → Prop where
  | init (sender tripId payee : Nat) (conditions : PaymentConditions)
      (msgValue : Nat) (tripHasEscrow tripRegistered : Bool)
      (escrowCounter now : Nat) (L : EscrowLedger) :
      initLedger sender tripId payee conditions msgValue tripHasEscrow
        tripRegistered escrowCounter now = .ok L →
      ReachableLedger owner L
  | step (L : EscrowLedger) (op : EscrowOp) (L' : EscrowLedger) :
      ReachableLedger owner L → ledgerStep owner L op = .ok L' →
      ReachableLedger owner L'

/-- The inductive invariant tying the escrow record's accounting fields to
the transfer history. -/
def EscrowInv (L : EscrowLedger) : Prop :=
  L.escrow.releasedAmount ≤ L.escrow.amount ∧
  L.releases.sum = L.escrow.releasedAmount ∧
  L.deposits.sum = L.escrow.amount ∧
  (¬ L.escrow.status = EscrowStatus.Refunded → L.refunds = []) ∧
  (L.escrow.status = EscrowStatus.Refunded →
    L.refunds.sum + L.escrow.releasedAmount = L.escrow.amount)

/-- `ICarbonCredits.RewardType`. -/
inductive RewardType where
  | TripCompletion
  | LowCarbonFootprint
  | CarbonNeutral
  | BatchOptimization
  | SustainableMode
deriving DecidableEq, Repr

/-- `ICarbonCredits.CarbonReward`. -/
structure CarbonReward where
  rewardId : Nat
  recipient : Nat
  tripId : Nat
  amount : Nat
  carbonOffset : Nat
  rewardType : RewardType
  createdAt : Nat
  claimedAt : Nat
deriving DecidableEq, Repr

/-- `ICarbonCredits.RewardParameters`. -/
structure RewardParameters where
  baseMultiplier : Nat
  lowCarbonBonus : Nat
  carbonNeutralBonus : Nat
  batchOptimizationBonus : Nat
deriving DecidableEq, Repr

/-- The zero record a Solidity mapping yields for an absent key. -/
def emptyReward : CarbonReward :=
  { rewardId := 0, recipient := 0, tripId := 0, amount := 0, carbonOffset := 0,
    rewardType := RewardType.TripCompletion, createdAt := 0, claimedAt := 0 }

/-- State of the `CarbonCredits` contract: counter, reward log, per-user
reward lists, offset totals, claim flags, ERC20 balances, parameters,
and the `Ownable` owner. -/
structure CreditsState where
  rewardCounter : Nat
  rewards : Nat → CarbonReward
  userRewards : Nat → List Nat
  totalCarbonOffset : Nat → Nat
  claimedRewards : Nat → Bool
  balances : Nat → Nat
  rewardParameters : RewardParameters
  owner : Nat

/-- The parameters installed by the `CarbonCredits` constructor. -/
def defaultRewardParameters : RewardParameters :=
  { baseMultiplier := 100, lowCarbonBonus := 20, carbonNeutralBonus := 50,
    batchOptimizationBonus := 15 }

/-- `CarbonCredits` state right after construction. -/
def initialCreditsState (owner : Nat) : CreditsState :=
  { rewardCounter := 0
    rewards := fun _ => emptyReward
    userRewards := fun _ => []
    totalCarbonOffset := fun _ => 0
    claimedRewards := fun _ => false
    balances := fun _ => 0
    rewardParameters := defaultRewardParameters
    owner := owner }

/-- `CarbonCredits._isAuthorizedMinter`. -/
def isAuthorizedMinter (s : CreditsState) (account : Nat) : Bool :=
  account == s.owner

/-- `CarbonCredits.calculateReward`: reads `_rewardParameters` from the
contract state, here passed explicitly. -/
def calculateReward (p : RewardParameters) (carbonOffset : Nat)
    (rewardType : RewardType) : Nat :=
  let baseAmount := carbonOffset * p.baseMultiplier
  let bonus :=
    if rewardType = RewardType.LowCarbonFootprint then
      baseAmount * p.lowCarbonBonus / 100
    else if rewardType = RewardType.CarbonNeutral then
      baseAmount * p.carbonNeutralBonus / 100
    else if rewardType = RewardType.BatchOptimization then
      baseAmount * p.batchOptimizationBonus / 100
    else 0
  baseAmount + bonus

/-- `CarbonCredits.mintReward`. Returns the new state together with the pair
`(rewardId, amount)` the function returns. The source writes the reward
record, credits the balance, marks the reward claimed and stamps
`claimedAt` in the same call. -/
def mintReward (sender : Nat) (s : CreditsState) (recipient tripId carbonOffset : Nat)
    (rewardType : RewardType) (now : Nat) :
    Except String (CreditsState × Nat × Nat) :=
  if ¬ (sender = s.owner ∨ isAuthorizedMinter s sender = true) then
    .error "CarbonCredits: Not authorized minter"
  else if recipient = 0 then .error "CarbonCredits: Invalid recipient"
  else if carbonOffset = 0 then
    .error "CarbonCredits: Carbon offset must be greater than 0"
  else
    let amount := calculateReward s.rewardParameters carbonOffset rewardType
    if amount = 0 then .error "CarbonCredits: Calculated reward is zero"
    else
      let rewardId := s.rewardCounter + 1
      let newReward : CarbonReward :=
        { rewardId := rewardId, recipient := recipient, tripId := tripId,
          amount := amount, carbonOffset := carbonOffset,
          rewardType := rewardType, createdAt := now, claimedAt := now }
      .ok ({ s with
              rewardCounter := rewardId
              rewards := Function.update s.rewards rewardId newReward
              userRewards := Function.update s.userRewards recipient
                (s.userRewards recipient ++ [rewardId])
              totalCarbonOffset := Function.update s.totalCarbonOffset recipient
                (s.totalCarbonOffset recipient + carbonOffset)
              balances := Function.update s.balances recipient
                (s.balances recipient + amount)
              claimedRewards := Function.update s.claimedRewards rewardId true },
            rewardId, amount)

/-- `CarbonCredits.claimReward`. -/
def claimReward (sender : Nat) (s : CreditsState) (rewardId : Nat) (now : Nat) :
    Except String CreditsState :=
  if (s.rewards rewardId).rewardId = 0 then .error "CarbonCredits: Reward does not exist"
  else if ¬ (s.rewards rewardId).recipient = sender then
    .error "CarbonCredits: Not reward recipient"
  else if s.claimedRewards rewardId = true then
    .error "CarbonCredits: Reward already claimed"
  else .ok { s with
    claimedRewards := Function.update s.claimedRewards rewardId true
    rewards := Function.update s.rewards rewardId
      { s.rewards rewardId with claimedAt := now }
    balances := Function.update s.balances sender
      (s.balances sender + (s.rewards rewardId).amount) }

/-- The loop body of `CarbonCredits.claimAllRewards`. -/
def claimAllStep (recipient now : Nat) (acc : CreditsState × Nat) (rewardId : Nat) :
    CreditsState × Nat :=
  let s := acc.1
  if s.claimedRewards rewardId = false then
    let reward := s.rewards rewardId
    ({ s with
        claimedRewards := Function.update s.claimedRewards rewardId true
        rewards := Function.update s.rewards rewardId { reward with claimedAt := now }
        balances := Function.update s.balances recipient
          (s.balances recipient + reward.amount) },
     acc.2 + reward.amount)
  else acc

/-- `CarbonCredits.claimAllRewards`. -/
def claimAllRewards (sender : Nat) (s : CreditsState) (recipient now : Nat) :
    Except String (CreditsState × Nat) :=
  if recipient = 0 then .error "CarbonCredits: Invalid recipient"
  else if ¬ (sender = recipient ∨ sender = s.owner) then
    .error "CarbonCredits: Not authorized"
  else .ok ((s.userRewards recipient).foldl (claimAllStep recipient now) (s, 0))

/-- `CarbonCredits.burnCredits`. -/
def burnCredits (sender : Nat) (s : CreditsState) (amount : Nat) (reason : String) :
    Except String CreditsState :=
  if amount = 0 then .error "CarbonCredits: Amount must be greater than 0"
  else if s.balances sender < amount then .error "CarbonCredits: Insufficient balance"
  else .ok { s with
    balances := Function.update s.balances sender (s.balances sender - amount) }

/-- `CarbonCredits.updateRewardParameters`. -/
def updateRewardParameters (sender : Nat) (s : CreditsState)
    (parameters : RewardParameters) : Except String CreditsState :=
  if ¬ sender = s.owner then .error "CarbonCredits: Not owner"
  else if parameters.baseMultiplier = 0 then
    .error "CarbonCredits: Invalid base multiplier"
  else .ok { s with rewardParameters := parameters }

/-- The state-mutating `CarbonCredits` operations other than
`updateRewardParameters`. -/
inductive CreditsOp where
  | mint (sender recipient tripId carbonOffset : Nat) (rewardType : RewardType) (now : Nat)
  | claim (sender rewardId now : Nat)
  | claimAll (sender recipient now : Nat)
  | burn (sender amount : Nat) (reason : String)

/-- One non-parameter-update operation applied to the credits state. -/
def creditsStep (s : CreditsState) (op : CreditsOp) : Except String CreditsState :=
  match op with
  | CreditsOp.mint sender recipient tripId offset ty now =>
      match mintReward sender s recipient tripId offset ty now with
      | .ok (s1, _, _) => .ok s1
      | .error m => .error m
  | CreditsOp.claim sender rewardId now => claimReward sender s rewardId now
  | CreditsOp.claimAll sender recipient now =>
      match claimAllRewards sender s recipient now with
      | .ok (s1, _) => .ok s1
      | .error m => .error m
  | CreditsOp.burn sender amount reason => burnCredits sender s amount reason

theorem createEscrow_ok {sender tripId payee : Nat} {conditions : PaymentConditions}
    {msgValue : Nat} {tripHasEscrow tripRegistered : Bool} {escrowCounter now : Nat}
    {e : EscrowPayment}
    (h : createEscrow sender tripId payee conditions msgValue tripHasEscrow
      tripRegistered escrowCounter now = .ok e) :
    e.amount = msgValue ∧ e.releasedAmount = 0 ∧ e.status = EscrowStatus.Pending ∧
    e.payer = sender ∧ e.payee = payee ∧ 0 < msgValue := by
  unfold createEscrow at h
  split_ifs at h
  simp only [Except.ok.injEq] at h
  subst h
  refine ⟨rfl, rfl, rfl, rfl, rfl, by omega⟩

theorem depositToEscrow_ok {sender : Nat} {e : EscrowPayment} {v : Nat}
    {e' : EscrowPayment} {evs : List EscrowEvent}
    (h : depositToEscrow sender e v = .ok (e', evs)) :
    0 < v ∧ (e.status = EscrowStatus.Pending ∨ e.status = EscrowStatus.PartiallyReleased) ∧
    e' = { e with amount := e.amount + v } := by
  unfold depositToEscrow at h
  split_ifs at h
  simp only [Except.ok.injEq, Prod.mk.injEq] at h
  obtain ⟨h1, h2⟩ := h
  subst h1
  refine ⟨by omega, by tauto, rfl⟩

theorem releasePayment_ok {sender owner : Nat} {e : EscrowPayment} {amount : Nat}
    {reason : String} {now : Nat} {e' : EscrowPayment} {ts : List Transfer}
    {evs : List EscrowEvent}
    (h : releasePayment sender owner e amount reason now = .ok (e', ts, evs)) :
    (e.status = EscrowStatus.Pending ∨ e.status = EscrowStatus.PartiallyReleased) ∧
    0 < amount ∧ amount ≤ e.amount - e.releasedAmount ∧
    e'.amount = e.amount ∧ e'.releasedAmount = e.releasedAmount + amount ∧
    ts = [{ recipient := e.payee, value := amount }] ∧
    (e'.status = EscrowStatus.Released ∨ e'.status = EscrowStatus.PartiallyReleased) := by
  unfold releasePayment at h
  split_ifs at h
  all_goals simp only [Except.ok.injEq, Prod.mk.injEq] at h
  all_goals obtain ⟨h1, h2, h3⟩ := h
  all_goals subst h1
  all_goals subst h2
  all_goals refine ⟨by tauto, by omega, by tauto, rfl, rfl, rfl, by simp⟩

theorem releaseOnTripCompletion_ok {sender : Nat} {e : EscrowPayment} {tripId : Nat}
    {trip : TripMetadata} {now : Nat} {e' : EscrowPayment} {ts : List Transfer}
    {evs : List EscrowEvent}
    (h : releaseOnTripCompletion sender e tripId trip now = .ok (e', ts, evs)) :
    ∃ a, 0 < a ∧ a ≤ e.amount - e.releasedAmount ∧
    e'.amount = e.amount ∧ e'.releasedAmount = e.releasedAmount + a ∧
    ts = [{ recipient := e.payee, value := a }] ∧
    (e.status = EscrowStatus.Pending ∨ e.status = EscrowStatus.PartiallyReleased) ∧
    (e'.status = EscrowStatus.Released ∨ e'.status = EscrowStatus.PartiallyReleased) := by
  unfold releaseOnTripCompletion at h
  simp only [] at h
  split_ifs at h
  all_goals simp only [Except.ok.injEq, Prod.mk.injEq] at h
  all_goals obtain ⟨h1, h2, h3⟩ := h
  all_goals subst h1
  all_goals subst h2
  case _ hlt _ _ =>
    exact ⟨e.amount * e.conditions.completionPercentage / 100,
      by omega, by omega, rfl, rfl, rfl, by tauto, by simp⟩
  case _ hlt _ _ =>
    exact ⟨e.amount * e.conditions.completionPercentage / 100,
      by omega, by omega, rfl, rfl, rfl, by tauto, by simp⟩
  case _ hlt _ _ =>
    exact ⟨e.amount - e.releasedAmount, by omega, by omega, rfl, rfl, rfl, by tauto, by simp⟩
  case _ hlt _ _ =>
    exact ⟨e.amount - e.releasedAmount, by omega, by omega, rfl, rfl, rfl, by tauto, by simp⟩

theorem completeMilestone_ok {sender : Nat} {e : EscrowPayment} {mid : Nat}
    {ph : String} {e' : EscrowPayment} {ts : List Transfer} {evs : List EscrowEvent}
    (h : completeMilestone sender e mid ph = .ok (e', ts, evs)) :
    e.status = EscrowStatus.Pending ∧
    0 < e.amount * e.conditions.milestonePercentage / 100 ∧
    e.releasedAmount + e.amount * e.conditions.milestonePercentage / 100 ≤ e.amount ∧
    e'.amount = e.amount ∧
    e'.releasedAmount = e.releasedAmount + e.amount * e.conditions.milestonePercentage / 100 ∧
    ts = [{ recipient := e.payee, value := e.amount * e.conditions.milestonePercentage / 100 }] ∧
    e'.status = EscrowStatus.PartiallyReleased := by
  unfold completeMilestone at h
  simp only [] at h
  split_ifs at h
  simp only [Except.ok.injEq, Prod.mk.injEq] at h
  obtain ⟨h1, h2, h3⟩ := h
  subst h1
  subst h2
  refine ⟨by tauto, by omega, by tauto, rfl, rfl, rfl, rfl⟩

theorem refundPayment_ok {sender owner : Nat} {e : EscrowPayment} {reason : String}
    {e' : EscrowPayment} {ts : List Transfer} {evs : List EscrowEvent}
    (h : refundPayment sender owner e reason = .ok (e', ts, evs)) :
    sender = owner ∧
    (e.status = EscrowStatus.Pending ∨ e.status = EscrowStatus.PartiallyReleased) ∧
    0 < e.amount - e.releasedAmount ∧
    e' = { e with status := EscrowStatus.Refunded } ∧
    ts = [{ recipient := e.payer, value := e.amount - e.releasedAmount }] ∧
    evs = [EscrowEvent.PaymentRefunded e.escrowId (e.amount - e.releasedAmount) reason,
           EscrowEvent.EscrowStatusUpdated e.escrowId EscrowStatus.Refunded
             EscrowStatus.Refunded] := by
  unfold refundPayment at h
  simp only [] at h
  split_ifs at h
  simp only [Except.ok.injEq, Prod.mk.injEq] at h
  obtain ⟨h1, h2, h3⟩ := h
  subst h1
  subst h2
  subst h3
  refine ⟨by tauto, by tauto, by omega, rfl, rfl, rfl⟩

theorem escrowInv_init {sender tripId payee : Nat} {conditions : PaymentConditions}
    {msgValue : Nat} {tripHasEscrow tripRegistered : Bool} {escrowCounter now : Nat}
    {L : EscrowLedger}
    (h : initLedger sender tripId payee conditions msgValue tripHasEscrow
      tripRegistered escrowCounter now = .ok L) : EscrowInv L := by
  unfold initLedger at h
  cases hc : createEscrow sender tripId payee conditions msgValue tripHasEscrow
      tripRegistered escrowCounter now with
  | error m => rw [hc] at h; exact Except.noConfusion h
  | ok e =>
    rw [hc] at h
    injection h with h
    subst h
    obtain ⟨ha, hr, hs, _⟩ := createEscrow_ok hc
    refine ⟨?_, ?_, ?_, ?_, ?_⟩ <;> dsimp only
    · omega
    · simp [hr]
    · simp [ha]
    · intro _
      rfl
    · intro hst
      rw [hs] at hst
      exact absurd hst (by simp)

theorem escrowInv_step {owner : Nat} {L : EscrowLedger} {op : EscrowOp}
    {L' : EscrowLedger} (hinv : EscrowInv L) (h : ledgerStep owner L op = .ok L') :
    EscrowInv L' := by
  obtain ⟨h1, h2, h3, h4, h5⟩ := hinv
  cases op with
  | deposit sender v =>
    simp only [ledgerStep] at h
    cases hc : depositToEscrow sender L.escrow v with
    | error m => rw [hc] at h; exact Except.noConfusion h
    | ok p =>
      obtain ⟨e, evs⟩ := p
      rw [hc] at h
      injection h with h
      subst h
      obtain ⟨hv, hst, he⟩ := depositToEscrow_ok hc
      have hrf : L.refunds = [] := h4 (by rcases hst with hst | hst <;> simp [hst])
      refine ⟨?_, ?_, ?_, ?_, ?_⟩ <;> simp [he, List.sum_append, hrf]
      · omega
      · exact h2
      · omega
      · intro hx
        rcases hst with hst | hst <;> rw [hst] at hx <;> exact absurd hx (by simp)
  | release sender amt reason now =>
    simp only [ledgerStep] at h
    cases hc : releasePayment sender owner L.escrow amt reason now with
    | error m => rw [hc] at h; exact Except.noConfusion h
    | ok p =>
      obtain ⟨e, ts, evs⟩ := p
      rw [hc] at h
      injection h with h
      subst h
      obtain ⟨hst, hpos, hle, ham, hrel, hts, hst'⟩ := releasePayment_ok hc
      have hrf : L.refunds = [] := h4 (by rcases hst with hst | hst <;> simp [hst])
      refine ⟨?_, ?_, ?_, ?_, ?_⟩ <;>
        simp [hts, ham, hrel, List.sum_append, hrf]
      · omega
      · omega
      · exact h3
      · intro hx
        rcases hst' with hst' | hst' <;> rw [hst'] at hx <;> exact absurd hx (by simp)
  | releaseOnCompletion sender tid trip now =>
    simp only [ledgerStep] at h
    cases hc : releaseOnTripCompletion sender L.escrow tid trip now with
    | error m => rw [hc] at h; exact Except.noConfusion h
    | ok p =>
      obtain ⟨e, ts, evs⟩ := p
      rw [hc] at h
      injection h with h
      subst h
      obtain ⟨a, hpos, hle, ham, hrel, hts, hst, hst'⟩ := releaseOnTripCompletion_ok hc
      have hrf : L.refunds = [] := h4 (by rcases hst with hst | hst <;> simp [hst])
      refine ⟨?_, ?_, ?_, ?_, ?_⟩ <;>
        simp [hts, ham, hrel, List.sum_append, hrf]
      · omega
      · omega
      · exact h3
      · intro hx
        rcases hst' with hst' | hst' <;> rw [hst'] at hx <;> exact absurd hx (by simp)
  | milestone sender mid proofHash =>
    simp only [ledgerStep] at h
    cases hc : completeMilestone sender L.escrow mid proofHash with
    | error m => rw [hc] at h; exact Except.noConfusion h
    | ok p =>
      obtain ⟨e, ts, evs⟩ := p
      rw [hc] at h
      injection h with h
      subst h
      obtain ⟨hst, hpos, hle, ham, hrel, hts, hst'⟩ := completeMilestone_ok hc
      have hrf : L.refunds = [] := h4 (by simp [hst])
      refine ⟨?_, ?_, ?_, ?_, ?_⟩ <;>
        simp [hts, ham, hrel, List.sum_append, hrf]
      · omega
      · omega
      · exact h3
      · rw [hst']
        intro hx
        exact absurd hx (by simp)
  | refund sender reason =>
    simp only [ledgerStep] at h
    cases hc : refundPayment sender owner L.escrow reason with
    | error m => rw [hc] at h; exact Except.noConfusion h
    | ok p =>
      obtain ⟨e, ts, evs⟩ := p
      rw [hc] at h
      injection h with h
      subst h
      obtain ⟨hown, hst, hpos, he, hts, hevs⟩ := refundPayment_ok hc
      have hrf : L.refunds = [] := h4 (by rcases hst with hst | hst <;> simp [hst])
      refine ⟨?_, ?_, ?_, ?_, ?_⟩ <;>
        simp [hts, he, List.sum_append, hrf]
      · omega
      · exact h2
      · exact h3
      · omega

theorem reachableLedger_inv {owner : Nat} {L : EscrowLedger}
    (h : ReachableLedger owner L) : EscrowInv L := by
  induction h with
  | init sender tripId payee conditions msgValue tripHasEscrow tripRegistered
      escrowCounter now L hinit => exact escrowInv_init hinit
  | step L op L' hr hs ih => exact escrowInv_step ih hs

/-- C1: for every escrow and every sequence of operations starting from a
successful `createEscrow`, after each operation `releasedAmount ≤ amount`
holds (`amount - releasedAmount` never underflows), and the cumulative value
transferred out of the escrow — releases to the payee plus the refund to the
payer — never exceeds `amount`. -/
theorem escrow_conservation_bound (owner : Nat) (L : EscrowLedger)
    (h : ReachableLedger owner L) :
    L.escrow.releasedAmount ≤ L.escrow.amount ∧
    L.releases.sum + L.refunds.sum ≤ L.escrow.amount := by
  obtain ⟨h1, h2, h3, h4, h5⟩ := reachableLedger_inv h
  refine ⟨h1, ?_⟩
  by_cases hr : L.escrow.status = EscrowStatus.Refunded
  · have := h5 hr
    omega
  · rw [h4 hr]
    simp
    omega

/-- Release conditions used in the concrete runs: 30% milestone, 70% on
completion. -/
def cond0 : PaymentConditions :=
  { requiresTripCompletion := true, requiresDeliveryProof := false,
    requiresReceiverConfirmation := false, milestonePercentage := 30,
    completionPercentage := 70 }

/-- The escrow record created by `createEscrow 1 7 2 cond0 1000 false true 0 5`. -/
def escrow0 : EscrowPayment :=
  { escrowId := 1, tripId := 7, payer := 1, payee := 2, amount := 1000,
    releasedAmount := 0, status := EscrowStatus.Pending, createdAt := 5,
    releasedAt := 0, conditions := cond0 }

/-- The ledger right after that `createEscrow`. -/
def ledger0 : EscrowLedger :=
  { escrow := escrow0, deposits := [1000], releases := [], refunds := [] }

theorem escrow_conservation_bound_witness :
    ledger0.escrow.releasedAmount ≤ ledger0.escrow.amount ∧
    ledger0.releases.sum + ledger0.refunds.sum ≤ ledger0.escrow.amount :=
  escrow_conservation_bound 9 ledger0
    (ReachableLedger.init 1 7 2 cond0 1000 false true 0 5 ledger0 rfl)

/-- The ledger after the administrator refunds `ledger0`: the full 1000 has
gone back to the payer, while `releasedAmount` is left at 0. -/
def ledger0r : EscrowLedger :=
  { escrow := { escrow0 with status := EscrowStatus.Refunded },
    deposits := [1000], releases := [], refunds := [1000] }

/-- C2, counterexample: after creating an escrow with a 1000 deposit and
refunding it, `sum(releases) + sum(refunds) = 1000` but
`sum(deposits) - (amount - releasedAmount) = 0`, because `refundPayment`
does not update `releasedAmount`; the claimed accounting equation fails
right after a refund. -/
theorem escrow_conservation_equation_cex :
    initLedger 1 7 2 cond0 1000 false true 0 5 = .ok ledger0 ∧
    ledgerStep 9 ledger0 (EscrowOp.refund 9 "cancelled") = .ok ledger0r ∧
    ¬ (ledger0r.releases.sum + ledger0r.refunds.sum =
        ledger0r.deposits.sum - (ledger0r.escrow.amount - ledger0r.escrow.releasedAmount)) :=
  ⟨rfl, rfl, by decide⟩

/-- C2, amended: for every reachable escrow ledger state, while no refund
has occurred (`status ≠ Refunded`) the accounting equation
`sum(releases) + sum(refunds) = sum(deposits) - (amount - releasedAmount)`
holds after each committed operation; after a refund the escrow is fully
drained instead: `sum(releases) + sum(refunds) = sum(deposits)`, while the
stored `releasedAmount` is not updated by the refund. -/
theorem escrow_conservation_equation (owner : Nat) (L : EscrowLedger)
    (h : ReachableLedger owner L) :
    (¬ L.escrow.status = EscrowStatus.Refunded →
      L.releases.sum + L.refunds.sum =
        L.deposits.sum - (L.escrow.amount - L.escrow.releasedAmount)) ∧
    (L.escrow.status = EscrowStatus.Refunded →
      L.releases.sum + L.refunds.sum = L.deposits.sum) := by
  obtain ⟨h1, h2, h3, h4, h5⟩ := reachableLedger_inv h
  constructor
  · intro hr
    rw [h4 hr]
    simp
    omega
  · intro hr
    have h6 := h5 hr
    omega

theorem escrow_conservation_equation_witness :
    (¬ ledger0.escrow.status = EscrowStatus.Refunded →
      ledger0.releases.sum + ledger0.refunds.sum =
        ledger0.deposits.sum - (ledger0.escrow.amount - ledger0.escrow.releasedAmount)) ∧
    (ledger0.escrow.status = EscrowStatus.Refunded →
      ledger0.releases.sum + ledger0.refunds.sum = ledger0.deposits.sum) :=
  escrow_conservation_equation 9 ledger0
    (ReachableLedger.init 1 7 2 cond0 1000 false true 0 5 ledger0 rfl)

/-- C3: every rejected escrow operation aborts with zero state mutation
(the step function returns the pre-state unchanged alongside the revert
message); in particular a release requested for more than
`amount - releasedAmount` on a releasable escrow is rejected with the
insufficient-balance error (the spec's `ConservationError`) and the ledger
is unchanged. -/
theorem rejected_ops_no_mutation (owner : Nat) (L : EscrowLedger) (op : EscrowOp)
    (sender amount : Nat) (reason : String) (now : Nat)
    (hst : L.escrow.status = EscrowStatus.Pending ∨
      L.escrow.status = EscrowStatus.PartiallyReleased)
    (hgt : L.escrow.amount - L.escrow.releasedAmount < amount) :
    ((execLedger owner L op).2.isSome → (execLedger owner L op).1 = L) ∧
    execLedger owner L (EscrowOp.release sender amount reason now) =
      (L, some "PaymentEscrow: Insufficient balance") := by
  constructor
  · intro hsome
    unfold execLedger at hsome ⊢
    cases hc : ledgerStep owner L op with
    | ok L1 =>
      rw [hc] at hsome
      simp at hsome
    | error m =>
      rfl
  · have hrel : releasePayment sender owner L.escrow amount reason now =
        .error "PaymentEscrow: Insufficient balance" := by
      unfold releasePayment
      rw [if_neg (not_not_intro hst), if_neg (by omega), if_pos (by omega)]
    unfold execLedger
    simp only [ledgerStep, hrel]

theorem rejected_ops_no_mutation_witness :
    ((execLedger 9 ledger0 (EscrowOp.release 1 2000 "extra" 6)).2.isSome →
      (execLedger 9 ledger0 (EscrowOp.release 1 2000 "extra" 6)).1 = ledger0) ∧
    execLedger 9 ledger0 (EscrowOp.release 1 2000 "extra" 6) =
      (ledger0, some "PaymentEscrow: Insufficient balance") :=
  rejected_ops_no_mutation 9 ledger0 (EscrowOp.release 1 2000 "extra" 6)
    1 2000 "extra" 6 (Or.inl rfl) (by decide)

/-- The bonus-percent table as the specification words it (0 for
Completion and SustainableMode, 20 for LowImpact, 50 for ImpactNeutral,
15 for BatchOptimized); spec-side definition, to be compared against the
source's `calculateReward`. -/
def specBonusPercent : RewardType → Nat
  | RewardType.TripCompletion => 0
  | RewardType.LowCarbonFootprint => 20
  | RewardType.CarbonNeutral => 50
  | RewardType.BatchOptimization => 15
  | RewardType.SustainableMode => 0

/-- C4: under the default parameters, `calculateReward x k` equals
`base + base * bonusPercent(k) / 100` with `base = x * 100`, and
`mintReward admin B jobId 100 Completion` returns `amount = 10000` while
`rewardKind = ImpactNeutral` returns `amount = 15000`. -/
theorem calculateReward_spec (x : Nat) (k : RewardType) (s : CreditsState)
    (admin recipient tripId now : Nat)
    (hparams : s.rewardParameters = defaultRewardParameters)
    (hadmin : admin = s.owner) (hrec : ¬ recipient = 0) :
    calculateReward defaultRewardParameters x k =
      x * 100 + x * 100 * specBonusPercent k / 100 ∧
    (∃ p, mintReward admin s recipient tripId 100 RewardType.TripCompletion now = .ok p ∧
      p.2.2 = 10000) ∧
    (∃ p, mintReward admin s recipient tripId 100 RewardType.CarbonNeutral now = .ok p ∧
      p.2.2 = 15000) := by
  subst hadmin
  refine ⟨?_, ?_, ?_⟩
  · cases k <;> simp [calculateReward, defaultRewardParameters, specBonusPercent]
  · unfold mintReward
    rw [if_neg (by simp), if_neg hrec, if_neg (by decide), hparams]
    norm_num [calculateReward, defaultRewardParameters]
    decide
  · unfold mintReward
    rw [if_neg (by simp), if_neg hrec, if_neg (by decide), hparams]
    norm_num [calculateReward, defaultRewardParameters]
    decide

theorem calculateReward_spec_witness :
    (calculateReward defaultRewardParameters 3 RewardType.LowCarbonFootprint =
      3 * 100 + 3 * 100 * specBonusPercent RewardType.LowCarbonFootprint / 100 ∧
    (∃ p, mintReward 9 (initialCreditsState 9) 2 7 100 RewardType.TripCompletion 5 = .ok p ∧
      p.2.2 = 10000) ∧
    (∃ p, mintReward 9 (initialCreditsState 9) 2 7 100 RewardType.CarbonNeutral 5 = .ok p ∧
      p.2.2 = 15000)) :=
  calculateReward_spec 3 RewardType.LowCarbonFootprint (initialCreditsState 9)
    9 2 7 5 rfl rfl (by decide)

/-- The `CarbonCredits` contract state owned by administrator 9, as
constructed. -/
def credits0 : CreditsState := initialCreditsState 9

/-- Parameters identical to the defaults except a doubled base multiplier. -/
def raisedParameters : RewardParameters :=
  { baseMultiplier := 200, lowCarbonBonus := 20, carbonNeutralBonus := 50,
    batchOptimizationBonus := 15 }

/-- C5, counterexample: `calculateReward` reads the mutable
`_rewardParameters`; after the administrative `updateRewardParameters`
doubles the base multiplier, a second call with the identical arguments
`(100, Completion)` returns 20000 where the first returned 10000 — the
result does not depend on the arguments alone. -/
theorem reward_determinism_cex :
    calculateReward credits0.rewardParameters 100 RewardType.TripCompletion = 10000 ∧
    (updateRewardParameters 9 credits0 raisedParameters).map
      (fun s => calculateReward s.rewardParameters 100 RewardType.TripCompletion) =
      .ok 20000 :=
  ⟨rfl, rfl⟩

theorem mintReward_params {sender : Nat} {s : CreditsState}
    {recipient tripId offset : Nat} {ty : RewardType} {now : Nat}
    {p : CreditsState × Nat × Nat}
    (h : mintReward sender s recipient tripId offset ty now = .ok p) :
    p.1.rewardParameters = s.rewardParameters := by
  unfold mintReward at h
  simp only [] at h
  split_ifs at h
  simp only [Except.ok.injEq] at h
  subst h
  rfl

theorem claimReward_params {sender : Nat} {s : CreditsState} {rewardId now : Nat}
    {s' : CreditsState} (h : claimReward sender s rewardId now = .ok s') :
    s'.rewardParameters = s.rewardParameters := by
  unfold claimReward at h
  split_ifs at h
  simp only [Except.ok.injEq] at h
  subst h
  rfl

theorem claimAllStep_params (recipient now : Nat) (acc : CreditsState × Nat)
    (rid : Nat) :
    ((claimAllStep recipient now acc rid).1).rewardParameters =
      acc.1.rewardParameters := by
  unfold claimAllStep
  dsimp only
  split <;> rfl

theorem foldl_claimAllStep_params (recipient now : Nat) (l : List Nat) :
    ∀ acc : CreditsState × Nat,
    ((l.foldl (claimAllStep recipient now) acc).1).rewardParameters =
      acc.1.rewardParameters := by
  induction l with
  | nil => intro acc; rfl
  | cons a l ih =>
    intro acc
    rw [List.foldl_cons, ih (claimAllStep recipient now acc a),
      claimAllStep_params]

theorem claimAllRewards_params {sender : Nat} {s : CreditsState}
    {recipient now : Nat} {p : CreditsState × Nat}
    (h : claimAllRewards sender s recipient now = .ok p) :
    p.1.rewardParameters = s.rewardParameters := by
  unfold claimAllRewards at h
  split_ifs at h
  simp only [Except.ok.injEq] at h
  subst h
  exact foldl_claimAllStep_params recipient now (s.userRewards recipient) (s, 0)

theorem burnCredits_params {sender : Nat} {s : CreditsState} {amount : Nat}
    {reason : String} {s' : CreditsState}
    (h : burnCredits sender s amount reason = .ok s') :
    s'.rewardParameters = s.rewardParameters := by
  unfold burnCredits at h
  split_ifs at h
  simp only [Except.ok.injEq] at h
  subst h
  rfl

/-- C5, amended: `calculateReward` depends only on its arguments and the
stored reward parameters; every state-mutating operation other than
`updateRewardParameters` (minting, claiming, burning) leaves the reward
parameters — and hence the result of `calculateReward` at identical
arguments — unchanged. -/
theorem reward_params_stable (s : CreditsState) (op : CreditsOp)
    (s' : CreditsState) (h : creditsStep s op = .ok s') (x : Nat) (k : RewardType) :
    calculateReward s'.rewardParameters x k =
      calculateReward s.rewardParameters x k := by
  cases op with
  | mint sender recipient tripId offset ty now =>
    simp only [creditsStep] at h
    cases hc : mintReward sender s recipient tripId offset ty now with
    | error m => rw [hc] at h; exact Except.noConfusion h
    | ok p =>
      rw [hc] at h
      obtain ⟨s1, rid, amt⟩ := p
      injection h with h
      subst h
      rw [mintReward_params hc]
  | claim sender rewardId now =>
    simp only [creditsStep] at h
    rw [claimReward_params h]
  | claimAll sender recipient now =>
    simp only [creditsStep] at h
    cases hc : claimAllRewards sender s recipient now with
    | error m => rw [hc] at h; exact Except.noConfusion h
    | ok p =>
      rw [hc] at h
      obtain ⟨s1, total⟩ := p
      injection h with h
      subst h
      rw [claimAllRewards_params hc]
  | burn sender amount reason =>
    simp only [creditsStep] at h
    rw [burnCredits_params h]

/-- The credits state after `mintReward 9 credits0 2 7 100 TripCompletion 5`. -/
def credits1 : CreditsState :=
  { credits0 with
      rewardCounter := 1
      rewards := Function.update credits0.rewards 1
        { rewardId := 1, recipient := 2, tripId := 7, amount := 10000,
          carbonOffset := 100, rewardType := RewardType.TripCompletion,
          createdAt := 5, claimedAt := 5 }
      userRewards := Function.update credits0.userRewards 2
        (credits0.userRewards 2 ++ [1])
      totalCarbonOffset := Function.update credits0.totalCarbonOffset 2
        (credits0.totalCarbonOffset 2 + 100)
      balances := Function.update credits0.balances 2
        (credits0.balances 2 + 10000)
      claimedRewards := Function.update credits0.claimedRewards 1 true }

theorem reward_params_stable_witness :
    calculateReward credits1.rewardParameters 3 RewardType.CarbonNeutral =
      calculateReward credits0.rewardParameters 3 RewardType.CarbonNeutral :=
  reward_params_stable credits0 (CreditsOp.mint 9 2 7 100 RewardType.TripCompletion 5)
    credits1 rfl 3 RewardType.CarbonNeutral

/-- C6: `releaseOnTripCompletion` is caller-independent (any caller may
invoke it); given a releasable escrow whose `tripId` matches and a job
record with status `Delivered`, it releases
`min(amount * completionPercent / 100, amount - releasedAmount)` (truncating
integer division) to the payee, requiring that value to be positive; with
`completionPercent = 100`, a single 1000 deposit and nothing yet released,
it transfers 1000 to the payee and sets the status to `Released`. -/
theorem releaseOnCompletion_spec (sender sender2 : Nat) (e : EscrowPayment)
    (tripId : Nat) (trip : TripMetadata) (now : Nat)
    (hstatus : e.status = EscrowStatus.Pending ∨
      e.status = EscrowStatus.PartiallyReleased)
    (hjob : e.tripId = tripId) (hdel : trip.status = TripStatus.Delivered)
    (hpos : 0 < min (e.amount * e.conditions.completionPercentage / 100)
      (e.amount - e.releasedAmount)) :
    releaseOnTripCompletion sender e tripId trip now =
      releaseOnTripCompletion sender2 e tripId trip now ∧
    (∃ r, releaseOnTripCompletion sender e tripId trip now = .ok r ∧
      r.2.1 = [{ recipient := e.payee,
                 value := min (e.amount * e.conditions.completionPercentage / 100)
                   (e.amount - e.releasedAmount) }]) ∧
    (e.status = EscrowStatus.Pending → e.amount = 1000 → e.releasedAmount = 0 →
      e.conditions.completionPercentage = 100 →
      releaseOnTripCompletion sender e tripId trip now =
        .ok ({ e with releasedAmount := 1000, status := EscrowStatus.Released,
                      releasedAt := now },
             [{ recipient := e.payee, value := 1000 }],
             [EscrowEvent.PaymentReleased e.escrowId 1000 e.payee "Trip completed",
              EscrowEvent.EscrowStatusUpdated e.escrowId EscrowStatus.Pending
                EscrowStatus.Released])) := by
  have hmin : (if e.amount * e.conditions.completionPercentage / 100 <
      e.amount - e.releasedAmount then
        e.amount * e.conditions.completionPercentage / 100
      else e.amount - e.releasedAmount) =
      min (e.amount * e.conditions.completionPercentage / 100)
        (e.amount - e.releasedAmount) := by
    split <;> omega
  refine ⟨rfl, ?_, ?_⟩
  · unfold releaseOnTripCompletion
    rw [if_neg (not_not_intro hstatus), if_neg (not_not_intro hjob),
      if_neg (not_not_intro hdel)]
    dsimp only
    rw [hmin, if_neg (by omega)]
    split
    · exact ⟨_, rfl, rfl⟩
    · exact ⟨_, rfl, rfl⟩
  · intro hp ham hrel hpct
    unfold releaseOnTripCompletion
    rw [if_neg (not_not_intro hstatus), if_neg (not_not_intro hjob),
      if_neg (not_not_intro hdel)]
    dsimp only
    rw [ham, hrel, hpct]
    norm_num

/-- Conditions releasing the full amount on completion. -/
def condC : PaymentConditions :=
  { requiresTripCompletion := true, requiresDeliveryProof := false,
    requiresReceiverConfirmation := false, milestonePercentage := 0,
    completionPercentage := 100 }

/-- An escrow holding 1000 for trip 8, full release on completion. -/
def escrowC : EscrowPayment :=
  { escrowId := 2, tripId := 8, payer := 1, payee := 2, amount := 1000,
    releasedAmount := 0, status := EscrowStatus.Pending, createdAt := 5,
    releasedAt := 0, conditions := condC }

/-- Trip 8 after delivery by carrier 2. -/
def tripD : TripMetadata :=
  { tripId := 8, shipper := 1, carrier := 2, receiver := 3,
    originLocation := "X", destinationLocation := "Y", distance := 100,
    estimatedCarbonFootprint := 50, status := TripStatus.Delivered,
    createdAt := 5, startedAt := 6, completedAt := 7, ipfsMetadataHash := "" }

theorem releaseOnCompletion_spec_witness :
    releaseOnTripCompletion 4 escrowC 8 tripD 9 =
      releaseOnTripCompletion 5 escrowC 8 tripD 9 ∧
    (∃ r, releaseOnTripCompletion 4 escrowC 8 tripD 9 = .ok r ∧
      r.2.1 = [{ recipient := escrowC.payee,
                 value := min (escrowC.amount * escrowC.conditions.completionPercentage / 100)
                   (escrowC.amount - escrowC.releasedAmount) }]) ∧
    (escrowC.status = EscrowStatus.Pending → escrowC.amount = 1000 →
      escrowC.releasedAmount = 0 →
      escrowC.conditions.completionPercentage = 100 →
      releaseOnTripCompletion 4 escrowC 8 tripD 9 =
        .ok ({ escrowC with releasedAmount := 1000,
                            status := EscrowStatus.Released, releasedAt := 9 },
             [{ recipient := escrowC.payee, value := 1000 }],
             [EscrowEvent.PaymentReleased escrowC.escrowId 1000 escrowC.payee
                "Trip completed",
              EscrowEvent.EscrowStatusUpdated escrowC.escrowId EscrowStatus.Pending
                EscrowStatus.Released])) :=
  releaseOnCompletion_spec 4 5 escrowC 8 tripD 9 (Or.inl rfl) rfl rfl (by decide)

/-- The trip record created by `createTrip 1 2 1 ...`: the caller (shipper)
names itself as receiver, and creation succeeds. -/
def tripCex : TripMetadata :=
  { tripId := 1, shipper := 1, carrier := 2, receiver := 1,
    originLocation := "X", destinationLocation := "Y", distance := 100,
    estimatedCarbonFootprint := 50, status := TripStatus.Created,
    createdAt := 5, startedAt := 0, completedAt := 0, ipfsMetadataHash := "" }

/-- C7, counterexample: `createTrip` accepts a call in which the
destination party equals the caller (initiator) — the three principals are
not forced pairwise distinct, so the claim that any coincidence is rejected
is false. -/
theorem createTrip_distinct_cex :
    createTrip 1 2 1 "X" "Y" 100 50 "" 0 5 = .ok tripCex ∧
    tripCex.receiver = tripCex.shipper :=
  ⟨rfl, rfl⟩

/-- C7, amended: a successful `createTrip` guarantees only
`carrier ≠ shipper` (plus nonzero carrier/receiver and positive
distance/footprint); `receiver` may coincide with either of the other two
principals. -/
theorem createTrip_validation (sender carrier receiver : Nat) (o d : String)
    (dist impact : Nat) (hmeta : String) (ctr now : Nat) (t : TripMetadata)
    (hok : createTrip sender carrier receiver o d dist impact hmeta ctr now = .ok t) :
    ¬ t.carrier = t.shipper ∧ ¬ t.carrier = 0 ∧ ¬ t.receiver = 0 ∧
    0 < t.distance ∧ 0 < t.estimatedCarbonFootprint ∧
    t.shipper = sender ∧ t.carrier = carrier ∧ t.receiver = receiver := by
  unfold createTrip at hok
  split_ifs at hok
  simp only [Except.ok.injEq] at hok
  subst hok
  refine ⟨by tauto, by tauto, by tauto, by dsimp only; omega, by dsimp only; omega,
    rfl, rfl, rfl⟩

/-- The trip record created by `createTrip 1 2 3 "X" "Y" 100 50 "" 0 5`. -/
def trip0 : TripMetadata :=
  { tripId := 1, shipper := 1, carrier := 2, receiver := 3,
    originLocation := "X", destinationLocation := "Y", distance := 100,
    estimatedCarbonFootprint := 50, status := TripStatus.Created,
    createdAt := 5, startedAt := 0, completedAt := 0, ipfsMetadataHash := "" }

theorem createTrip_validation_witness :
    ¬ trip0.carrier = trip0.shipper ∧ ¬ trip0.carrier = 0 ∧ ¬ trip0.receiver = 0 ∧
    0 < trip0.distance ∧ 0 < trip0.estimatedCarbonFootprint ∧
    trip0.shipper = 1 ∧ trip0.carrier = 2 ∧ trip0.receiver = 3 :=
  createTrip_validation 1 2 3 "X" "Y" 100 50 "" 0 5 trip0 rfl

theorem reachableTrip_inv {t : TripMetadata} (h : ReachableTrip t) :
    (t.status = TripStatus.Created → t.startedAt = 0) ∧
    ((t.status = TripStatus.Created ∨ t.status = TripStatus.InTransit) →
      t.completedAt = 0) := by
  induction h with
  | created sender carrier receiver o d dist impact hmeta ctr now t hc =>
    unfold createTrip at hc
    split_ifs at hc
    simp only [Except.ok.injEq] at hc
    subst hc
    exact ⟨fun _ => rfl, fun _ => rfl⟩
  | step t op t' hr hs ih =>
    obtain ⟨ih1, ih2⟩ := ih
    cases op with
    | start sender now =>
      simp only [tripStep] at hs
      unfold startTrip at hs
      split_ifs at hs with hcar hst
      simp only [Except.ok.injEq] at hs
      subst hs
      exact ⟨fun hx => absurd hx (by simp), fun _ => ih2 (Or.inl hst)⟩
    | complete sender actual proofHash now =>
      simp only [tripStep] at hs
      unfold completeTrip at hs
      split_ifs at hs with hcar hst hlen
      · simp only [Except.ok.injEq] at hs
        subst hs
        exact ⟨fun hx => absurd hx (by simp),
          fun hx => absurd hx (by rintro (hx | hx) <;> exact absurd hx (by simp))⟩
      · simp only [Except.ok.injEq] at hs
        subst hs
        exact ⟨fun hx => absurd hx (by simp),
          fun hx => absurd hx (by rintro (hx | hx) <;> exact absurd hx (by simp))⟩
    | cancel sender reason =>
      simp only [tripStep] at hs
      unfold cancelTrip at hs
      split_ifs at hs with hauth hst
      simp only [Except.ok.injEq] at hs
      subst hs
      exact ⟨fun hx => absurd hx (by simp),
        fun hx => absurd hx (by rintro (hx | hx) <;> exact absurd hx (by simp))⟩

/-- C8: under the ordinary operations (`startTrip`, `completeTrip`,
`cancelTrip`; `updateTripStatus` excluded), any successful step from a
reachable trip record preserves a nonzero `startedAt` and a nonzero
`completedAt` exactly, never steps out of `Delivered` or `Cancelled`
(so the status never regresses from them), never re-enters `Created`,
and only the `Created → InTransit` (resp. `InTransit → Delivered`)
transition can write `startedAt` (resp. `completedAt`) — so each field is
written at most once along any run. -/
theorem trip_lifecycle_monotone (t : TripMetadata) (op : TripOp)
    (t' : TripMetadata) (hr : ReachableTrip t) (hs : tripStep t op = .ok t') :
    (¬ t.startedAt = 0 → t'.startedAt = t.startedAt) ∧
    (¬ t.completedAt = 0 → t'.completedAt = t.completedAt) ∧
    (¬ t.status = TripStatus.Delivered ∧ ¬ t.status = TripStatus.Cancelled) ∧
    ¬ t'.status = TripStatus.Created ∧
    (¬ t'.startedAt = t.startedAt →
      t.status = TripStatus.Created ∧ t'.status = TripStatus.InTransit) ∧
    (¬ t'.completedAt = t.completedAt →
      t.status = TripStatus.InTransit ∧ t'.status = TripStatus.Delivered) := by
  obtain ⟨ih1, ih2⟩ := reachableTrip_inv hr
  cases op with
  | start sender now =>
    simp only [tripStep] at hs
    unfold startTrip at hs
    split_ifs at hs with hcar hst
    simp only [Except.ok.injEq] at hs
    subst hs
    exact ⟨fun hx => absurd (ih1 hst) hx, fun _ => rfl,
      by rw [hst]; exact ⟨by simp, by simp⟩, by simp,
      fun _ => ⟨hst, rfl⟩, fun hx => absurd rfl hx⟩
  | complete sender actual proofHash now =>
    simp only [tripStep] at hs
    unfold completeTrip at hs
    split_ifs at hs with hcar hst hlen
    · simp only [Except.ok.injEq] at hs
      subst hs
      exact ⟨fun _ => rfl, fun hx => absurd (ih2 (Or.inr hst)) hx,
        by rw [hst]; exact ⟨by simp, by simp⟩, by simp,
        fun hx => absurd rfl hx, fun _ => ⟨hst, rfl⟩⟩
    · simp only [Except.ok.injEq] at hs
      subst hs
      exact ⟨fun _ => rfl, fun hx => absurd (ih2 (Or.inr hst)) hx,
        by rw [hst]; exact ⟨by simp, by simp⟩, by simp,
        fun hx => absurd rfl hx, fun _ => ⟨hst, rfl⟩⟩
  | cancel sender reason =>
    simp only [tripStep] at hs
    unfold cancelTrip at hs
    split_ifs at hs with hauth hst
    simp only [Except.ok.injEq] at hs
    subst hs
    refine ⟨fun _ => rfl, fun _ => rfl, ?_, by simp,
      fun hx => absurd rfl hx, fun hx => absurd rfl hx⟩
    rcases hst with hx | hx <;> rw [hx] <;> exact ⟨by simp, by simp⟩

/-- `trip0` after carrier 2 starts the trip at time 7. -/
def trip0s : TripMetadata :=
  { trip0 with status := TripStatus.InTransit, startedAt := 7 }

theorem trip_lifecycle_monotone_witness :
    (¬ trip0.startedAt = 0 → trip0s.startedAt = trip0.startedAt) ∧
    (¬ trip0.completedAt = 0 → trip0s.completedAt = trip0.completedAt) ∧
    (¬ trip0.status = TripStatus.Delivered ∧ ¬ trip0.status = TripStatus.Cancelled) ∧
    ¬ trip0s.status = TripStatus.Created ∧
    (¬ trip0s.startedAt = trip0.startedAt →
      trip0.status = TripStatus.Created ∧ trip0s.status = TripStatus.InTransit) ∧
    (¬ trip0s.completedAt = trip0.completedAt →
      trip0.status = TripStatus.InTransit ∧ trip0s.status = TripStatus.Delivered) :=
  trip_lifecycle_monotone trip0 (TripOp.start 2 7) trip0s
    (ReachableTrip.created 1 2 3 "X" "Y" 100 50 "" 0 5 trip0 rfl) rfl

/-- C9: `completeMilestone` checks only that the escrow exists and is
`Pending` — no caller authorization. Two invocations differing only in the
caller identity are literally the same computation, and any principal can
trigger the release of `amount * milestonePercent / 100` to the payee. -/
theorem completeMilestone_caller_independent (s1 s2 : Nat) (e : EscrowPayment)
    (mid : Nat) (ph : String)
    (hstatus : e.status = EscrowStatus.Pending)
    (hpos : 0 < e.amount * e.conditions.milestonePercentage / 100)
    (hfit : e.releasedAmount + e.amount * e.conditions.milestonePercentage / 100 ≤
      e.amount) :
    completeMilestone s1 e mid ph = completeMilestone s2 e mid ph ∧
    completeMilestone s1 e mid ph =
      .ok ({ e with
              releasedAmount := e.releasedAmount +
                e.amount * e.conditions.milestonePercentage / 100,
              status := EscrowStatus.PartiallyReleased },
           [{ recipient := e.payee,
              value := e.amount * e.conditions.milestonePercentage / 100 }],
           [EscrowEvent.MilestoneCompleted e.escrowId mid
              (e.amount * e.conditions.milestonePercentage / 100),
            EscrowEvent.PaymentReleased e.escrowId
              (e.amount * e.conditions.milestonePercentage / 100) e.payee
              "Milestone completed"]) := by
  refine ⟨rfl, ?_⟩
  unfold completeMilestone
  rw [if_neg (not_not_intro hstatus)]
  dsimp only
  rw [if_neg (by omega), if_neg (not_not_intro hfit)]

theorem completeMilestone_caller_independent_witness :
    completeMilestone 4 escrow0 11 "proofhash" = completeMilestone 5 escrow0 11 "proofhash" ∧
    completeMilestone 4 escrow0 11 "proofhash" =
      .ok ({ escrow0 with
              releasedAmount := escrow0.releasedAmount +
                escrow0.amount * escrow0.conditions.milestonePercentage / 100,
              status := EscrowStatus.PartiallyReleased },
           [{ recipient := escrow0.payee,
              value := escrow0.amount * escrow0.conditions.milestonePercentage / 100 }],
           [EscrowEvent.MilestoneCompleted escrow0.escrowId 11
              (escrow0.amount * escrow0.conditions.milestonePercentage / 100),
            EscrowEvent.PaymentReleased escrow0.escrowId
              (escrow0.amount * escrow0.conditions.milestonePercentage / 100)
              escrow0.payee "Milestone completed"]) :=
  completeMilestone_caller_independent 4 5 escrow0 11 "proofhash" rfl
    (by decide) (by decide)

/-- C10: whenever `refundPayment` succeeds, the `EscrowStatusUpdated` event
it emits carries `oldStatus = Refunded` (the field is overwritten before
the event arguments are read), although the escrow's actual pre-refund
status was `Pending` or `PartiallyReleased`, never `Refunded`. -/
theorem refund_event_reports_refunded (sender owner : Nat) (e : EscrowPayment)
    (reason : String) (r : EscrowPayment × List Transfer × List EscrowEvent)
    (h : refundPayment sender owner e reason = .ok r) :
    r.2.2 = [EscrowEvent.PaymentRefunded e.escrowId (e.amount - e.releasedAmount) reason,
             EscrowEvent.EscrowStatusUpdated e.escrowId EscrowStatus.Refunded
               EscrowStatus.Refunded] ∧
    (e.status = EscrowStatus.Pending ∨ e.status = EscrowStatus.PartiallyReleased) ∧
    ¬ e.status = EscrowStatus.Refunded := by
  obtain ⟨e1, ts, evs⟩ := r
  obtain ⟨hown, hst, hpos, he, hts, hevs⟩ := refundPayment_ok h
  exact ⟨hevs, hst, by rcases hst with hx | hx <;> rw [hx] <;> simp⟩

theorem refund_event_reports_refunded_witness :
    ({ escrow0 with status := EscrowStatus.Refunded },
     [({ recipient := 1, value := 1000 } : Transfer)],
     [EscrowEvent.PaymentRefunded 1 1000 "late",
      EscrowEvent.EscrowStatusUpdated 1 EscrowStatus.Refunded
        EscrowStatus.Refunded]).2.2 =
      [EscrowEvent.PaymentRefunded escrow0.escrowId
        (escrow0.amount - escrow0.releasedAmount) "late",
       EscrowEvent.EscrowStatusUpdated escrow0.escrowId EscrowStatus.Refunded
         EscrowStatus.Refunded] ∧
    (escrow0.status = EscrowStatus.Pending ∨
      escrow0.status = EscrowStatus.PartiallyReleased) ∧
    ¬ escrow0.status = EscrowStatus.Refunded :=
  refund_event_reports_refunded 9 9 escrow0 "late"
    ({ escrow0 with status := EscrowStatus.Refunded },
     [{ recipient := 1, value := 1000 }],
     [EscrowEvent.PaymentRefunded 1 1000 "late",
      EscrowEvent.EscrowStatusUpdated 1 EscrowStatus.Refunded
        EscrowStatus.Refunded]) rfl
